import Mathlib

/-!
Shallow embedding of the `manta` pomodoro terminal timer
(package `internal`: `model.go` / `notify.go`, plus `main.go`).

The program is a Bubble Tea TUI.  Its mutable state is the Go struct
`model` (progress bar, `timeLeft`, `timeType`, `cursor`, `pause`,
`endTime`); events are Bubble Tea messages (key presses, window resize,
one-second ticks, animation frames); `Update` is the transition function
and `View` the renderer.

Embedding decisions, each justified against the source:
* `timeLeft` and `cursor` are Go `int`s, embedded as `Int` (the program
  deliberately lets `timeLeft` go negative, see the tick handler).
* The progress bar is embedded by the two fields the core logic reads or
  writes: `width` (`progress.Width`) and `percent`, the *target* percent
  (`progress.Percent()` returns the target set by `SetPercent`, which
  clamps its argument into [0,1]).  `percent` is a rational.  The Go value
  is a float64 computed as `1 - float64(timeLeft)/float64(total)` with
  total = 1500 or 300; the only comparison the program makes is
  `== 1.0`, and over every value the program can compute, the float is
  exactly 1.0 iff the exact rational (after the SetPercent clamp) is 1:
  for 1 ≤ timeLeft ≤ total the subtrahend is ≥ 1/1500 ≫ ulp(1)/2, so the
  rounded difference is strictly below 1.0, and for timeLeft ≤ 0 the
  exact value is ≥ 1 and both the float and the rational clamp to 1.
  The rational embedding is therefore faithful on this equality test.
* `endTime` is wall-clock only: it never feeds back into any transition
  and is shown in the countdown view; its formatted text (like the
  progress bar's rendered bar and the lipgloss help styling) enters
  `View` as an opaque string argument.
* Side effects performed or returned by `Update` are reified in a `Cmds`
  record: `quit` (tea.Quit), `tick` (tickCmd re-arm), `sound`
  (`PlayNotification()`), `notif` (the `notify(title, "")` call, holding
  the title string).  The frame command returned by `SetPercent` is pure
  animation and is not tracked.
* `choices[m.cursor]` in Go panics when the index is out of [0,2); that
  point is unreachable (the cursor invariant below), and the embedding
  uses `List.getD` with default `""` there, which falls through the
  `switch` and leaves the state unchanged.
-/

-- Batteries marks the `Rat` field operations irreducible, which blocks
-- `decide` from evaluating concrete runs of the timer; restore default
-- reducibility so witnesses and counterexamples can be checked by
-- evaluation.
set_option allowUnsafeReducibility true in
attribute [semireducible] Rat.add Rat.sub Rat.mul Rat.inv

namespace Manta

/-- `work = 25 * 60` seconds (model.go const block). -/
def work : Int := 25 * 60

/-- `rest = 5 * 60` seconds. -/
def rest : Int := 5 * 60

/-- `WORKTIME = "work"`. -/
def WORKTIME : String := "work"

/-- `RESTTIME = "rest"`. -/
def RESTTIME : String := "rest"

/-- `choices = []string{WORKTIME, RESTTIME}`. -/
def choices : List String := [WORKTIME, RESTTIME]

/-- Go map `mapping = Mapping{WORKTIME: work, RESTTIME: rest}`; lookup of a
missing key yields the zero value 0, as in Go. -/
def mappingGet (s : String) : Int :=
  if s = WORKTIME then work else if s = RESTTIME then rest else 0

/-- `padding = 2`. -/
def padding : Int := 2

/-- `maxWidth = 80`. -/
def maxWidth : Int := 80

/-- The Go struct `model`.  `percent` is the progress bar's target percent
(`progress.Percent()`); `width` is `progress.Width`.  The unused Go field
`choice` and the render-only `endTime` are not carried. -/
structure TimerModel where
  percent : ℚ
  width : Int
  timeLeft : Int
  timeType : String
  cursor : Int
  pause : Bool
deriving DecidableEq, Repr

/-- The side effects of one `Update` call: the returned tea commands
(`quit`, `tick`) and the synchronous calls made inside the tick branch
(`sound` for `PlayNotification()`, `notif` for `notify(title, "")`). -/
structure Cmds where
  quit : Bool
  tick : Bool
  sound : Bool
  notif : Option String
deriving DecidableEq, Repr

/-- No command (`return m, nil`). -/
def noCmd : Cmds := ⟨false, false, false, none⟩

/-- `return m, tea.Quit`. -/
def quitCmd : Cmds := ⟨true, false, false, none⟩

/-- `return m, tickCmd()` with no side effect. -/
def tickOnlyCmd : Cmds := ⟨false, true, false, none⟩

/-- Bubble Tea messages the program dispatches on: `tea.KeyMsg` (by its
string), `tea.WindowSizeMsg` (its width), `tickMsg`, `progress.FrameMsg`.
Any other message hits the `default` branch, which `frame` also models
state-wise (both leave the timer state unchanged and return no timer
command). -/
inductive Msg where
  | key (s : String)
  | resize (w : Int)
  | tick
  | frame
deriving DecidableEq, Repr

/-- `NewModel()`: `timeLeft: 0`, `timeType: WORKTIME`, zero-valued
`cursor` and `pause`; `progress.New` starts with target percent 0 and
default width 40. -/
def initModel : TimerModel :=
  { percent := 0, width := 40, timeLeft := 0, timeType := WORKTIME,
    cursor := 0, pause := false }

/-- `choices[i]` (Go panics out of range; unreachable — see the cursor
invariant — and embedded as the default `""`). -/
def choiceAt (i : Int) : String := choices.getD i.toNat ""

/-- `SetPercent` clamps its argument: `math.Max(0, math.Min(1, p))`. -/
def setPercentClamped (p : ℚ) : ℚ :=
  let q := if p < 1 then p else 1
  if q > 0 then q else 0

/-- The `tea.KeyMsg` arm of `Update`'s type switch, dispatching on
`msg.String()`. -/
def handleKey (m : TimerModel) (s : String) : TimerModel × Cmds :=
  if s = "ctrl+c" ∨ s = "q" then
    (m, quitCmd)
  else if s = "enter" then
    (let c := choiceAt m.cursor
     if c = WORKTIME then
       { m with timeLeft := work, timeType := WORKTIME }
     else if c = RESTTIME then
       { m with timeLeft := rest, timeType := RESTTIME }
     else m,
     noCmd)
  else if s = "down" ∨ s = "j" then
    (let c := m.cursor + 1
     { m with cursor := if c ≥ 2 then 0 else c }, noCmd)
  else if s = " " then
    ({ m with pause := !m.pause }, noCmd)
  else if s = "esc" then
    ({ m with timeLeft := 0, pause := false }, noCmd)
  else if s = "up" ∨ s = "k" then
    (let c := m.cursor - 1
     { m with cursor := if c < 0 then 1 else c }, noCmd)
  else (m, noCmd)

/-- The `tickMsg` arm of `Update`.  If paused, re-arm and return
unchanged.  Otherwise: fire `PlayNotification()` and `notify(...)` when
`m.progress.Percent() == 1.0 && m.timeLeft == 0`, then decrement
`timeLeft`, recompute the percent (two successive `if`s on `timeType`,
starting from 0.0), set it through the clamping `SetPercent`, and return
`tea.Batch(tickCmd(), cmd)`. -/
def handleTick (m : TimerModel) : TimerModel × Cmds :=
  if m.pause then (m, tickOnlyCmd)
  else
    let fire : Bool := m.percent = 1 ∧ m.timeLeft = 0
    let t := m.timeLeft - 1
    let p1 : ℚ := if m.timeType = WORKTIME then 1 - (t : ℚ) / (work : ℚ) else 0
    let p2 : ℚ := if m.timeType = RESTTIME then 1 - (t : ℚ) / (rest : ℚ) else p1
    ({ m with timeLeft := t, percent := setPercentClamped p2 },
     { quit := false, tick := true, sound := fire,
       notif := if fire then some ("Time to " ++ m.timeType ++ " is left") else none })

/-- `func (m model) Update(msg tea.Msg) (tea.Model, tea.Cmd)`. -/
def update (m : TimerModel) : Msg → TimerModel × Cmds
  | .key s => handleKey m s
  | .resize w =>
      let wNew := w - padding * 2 - 4
      ({ m with width := if wNew > maxWidth then maxWidth else wNew }, noCmd)
  | .tick => handleTick m
  | .frame => (m, noCmd)

/-- Fold a list of events through `update`, keeping only the state. -/
def runFrom (m : TimerModel) : List Msg → TimerModel
  | [] => m
  | e :: es => runFrom (update m e).1 es

/-- How many events in the list make the handler fire the completion
side effects (sound + notification share one guard). -/
def fireCount (m : TimerModel) : List Msg → Nat
  | [] => 0
  | e :: es => (if (update m e).2.sound then 1 else 0) + fireCount (update m e).1 es

/-- States the program can be in: `NewModel()` and everything `Update`
produces from there. -/
inductive Reachable : TimerModel → Prop
  | init : Reachable initModel
  | step (m : TimerModel) (e : Msg) : Reachable m → Reachable (update m e).1

/-- `totalSeconds` of the spec's data model: the configured duration of
the active phase, which the program keeps as `mapping[m.timeType]`. -/
def totalSeconds (m : TimerModel) : Int := mappingGet m.timeType

/-- `%02d`. -/
def pad2 (n : Int) : String :=
  let s := toString n
  if s.length < 2 then "0" ++ s else s

/-- One menu line of `View`'s loop body: cursor marker, choice name,
`" (%02dm)"` with `minutes := (mapping[choices[i]] % 3600) / 60`, newline. -/
def menuLine (m : TimerModel) (i : Int) (c : String) : String :=
  (if m.cursor = i then "[•] " else "[ ] ") ++ c ++ " (" ++
    pad2 ((mappingGet c).tmod 3600 / 60) ++ "m)" ++ "\n"

/-- The menu branch of `View` (`m.timeLeft <= 0`), with the two-element
loop over `choices` unrolled. -/
def menuView (m : TimerModel) : String :=
  "Choose time type:\n" ++ menuLine m 0 WORKTIME ++ menuLine m 1 RESTTIME ++
    "\n(press q to quit)\n"

/-- The countdown branch of `View`.  `pv` stands for the rendered
progress bar `m.progress.View()`, `endStr` for
`m.endTime.Format("15:04:05")`, and `hs` for the lipgloss `helpStyle`
renderer; all three are opaque to the timer logic. -/
def countdownView (m : TimerModel) (pv endStr : String) (hs : String → String) : String :=
  let pad := "  "
  let minutes := m.timeLeft.tmod 3600 / 60
  let seconds := m.timeLeft - minutes * 60
  let pauseGlyph := if m.pause then "⏸️" else "▶️"
  "\n" ++ pad ++ m.timeType ++ "\n\n" ++ pad ++ pv ++ "\n\n" ++
    pad ++ pad2 minutes ++ "m" ++ pad2 seconds ++ "s -> " ++ endStr ++ " " ++
    pauseGlyph ++ pad ++ hs "Press 'q' key to quit"

/-- `func (m model) View() string`. -/
def View (m : TimerModel) (pv endStr : String) (hs : String → String) : String :=
  if m.timeLeft ≤ 0 then menuView m else countdownView m pv endStr hs

/-- Events that move the menu cursor: the spec's CursorDown (`down`/`j`)
and CursorUp (`up`/`k`). -/
def CursorMove (e : Msg) : Prop :=
  e = Msg.key "down" ∨ e = Msg.key "j" ∨ e = Msg.key "up" ∨ e = Msg.key "k"

instance (e : Msg) : Decidable (CursorMove e) := by
  unfold CursorMove
  infer_instance

/-- A concrete run that drives one full Rest countdown to completion:
move the cursor to Rest, select it, then tick 300 times down to zero and
once more to cross the boundary. -/
def countdownRun : List Msg :=
  [Msg.key "down", Msg.key "enter"] ++ List.replicate 301 Msg.tick

/-- The state at the end of a completed Rest countdown: target percent
1, counter at zero, unpaused — the completion boundary. -/
def restBoundary : TimerModel :=
  { percent := 1, width := 40, timeLeft := 0, timeType := RESTTIME,
    cursor := 1, pause := false }

/-- A Rest countdown in flight: 10 seconds left, progress target already
at the value the previous tick computed. -/
def midRest : TimerModel :=
  { percent := 1 - (10 : ℚ) / 300, width := 40, timeLeft := 10,
    timeType := RESTTIME, cursor := 1, pause := false }

/-- The structural invariant the program maintains: the phase string is
one of the two choices, the cursor is a valid index, and the remaining
time never exceeds the active phase's configured duration. -/
def Inv (m : TimerModel) : Prop :=
  (m.timeType = WORKTIME ∨ m.timeType = RESTTIME) ∧
  (m.cursor = 0 ∨ m.cursor = 1) ∧
  m.timeLeft ≤ mappingGet m.timeType

lemma mappingGet_work : mappingGet WORKTIME = work := rfl

lemma mappingGet_rest : mappingGet RESTTIME = rest := rfl

lemma inv_initModel : Inv initModel := by
  refine ⟨Or.inl rfl, Or.inl rfl, ?_⟩
  decide

lemma inv_handleKey (m : TimerModel) (s : String) (h : Inv m) :
    Inv (handleKey m s).1 := by
  obtain ⟨hty, hc, hle⟩ := h
  unfold handleKey
  split
  · exact ⟨hty, hc, hle⟩
  split
  · dsimp only
    split
    · exact ⟨Or.inl rfl, hc, by rw [mappingGet_work]⟩
    split
    · exact ⟨Or.inr rfl, hc, by rw [mappingGet_rest]⟩
    · exact ⟨hty, hc, hle⟩
  split
  · exact ⟨hty, by dsimp; omega, hle⟩
  split
  · exact ⟨hty, hc, hle⟩
  split
  · refine ⟨hty, hc, ?_⟩
    rcases hty with h | h <;> simp [h, mappingGet_work, mappingGet_rest, work, rest]
  split
  · exact ⟨hty, by dsimp; omega, hle⟩
  · exact ⟨hty, hc, hle⟩

lemma inv_update (m : TimerModel) (e : Msg) (h : Inv m) : Inv (update m e).1 := by
  obtain ⟨hty, hc, hle⟩ := h
  cases e with
  | key s => exact inv_handleKey m s ⟨hty, hc, hle⟩
  | resize w => exact ⟨hty, hc, hle⟩
  | tick =>
      show Inv (handleTick m).1
      unfold handleTick
      split
      · exact ⟨hty, hc, hle⟩
      · exact ⟨hty, hc, by dsimp only; omega⟩
  | frame => exact ⟨hty, hc, hle⟩

lemma reachable_inv (m : TimerModel) (h : Reachable m) : Inv m := by
  induction h with
  | init => exact inv_initModel
  | step m e _ ih => exact inv_update m e ih

lemma inv_runFrom (evs : List Msg) (m : TimerModel) (h : Inv m) :
    Inv (runFrom m evs) := by
  induction evs generalizing m with
  | nil => exact h
  | cons e es ih => exact ih _ (inv_update m e h)

lemma reachable_runFrom (evs : List Msg) (m : TimerModel) (h : Reachable m) :
    Reachable (runFrom m evs) := by
  induction evs generalizing m with
  | nil => exact h
  | cons e es ih => exact ih _ (Reachable.step m e h)

lemma handleKey_sound (m : TimerModel) (s : String) :
    (handleKey m s).2.sound = false := by
  unfold handleKey
  split
  · rfl
  split
  · rfl
  split
  · rfl
  split
  · rfl
  split
  · rfl
  split
  · rfl
  · rfl

lemma handleKey_timeLeft (m : TimerModel) (s : String)
    (h1 : s ≠ "enter") (h2 : s ≠ "esc") :
    (handleKey m s).1.timeLeft = m.timeLeft := by
  unfold handleKey
  split_ifs with a b c d <;> rfl

lemma handleTick_paused (m : TimerModel) (h : m.pause = true) :
    handleTick m = (m, tickOnlyCmd) := by
  unfold handleTick
  rw [if_pos h]

lemma handleTick_nofire (m : TimerModel) (h : m.timeLeft ≠ 0) :
    (handleTick m).2.sound = false ∧ (handleTick m).2.notif = none := by
  unfold handleTick
  split
  · exact ⟨rfl, rfl⟩
  · dsimp only
    rw [decide_eq_false (by simp [h]), if_neg (by simp [h])]
    exact ⟨rfl, rfl⟩

lemma handleTick_timeLeft (m : TimerModel) (h : m.pause = false) :
    (handleTick m).1.timeLeft = m.timeLeft - 1 := by
  unfold handleTick
  rw [if_neg (by simp [h])]

lemma update_step_nofire (m : TimerModel) (e : Msg) (hm : m.timeLeft < 0)
    (h1 : e ≠ Msg.key "enter") (h2 : e ≠ Msg.key "esc") :
    (update m e).2.sound = false ∧ (update m e).1.timeLeft < 0 := by
  cases e with
  | key s =>
      refine ⟨handleKey_sound m s, ?_⟩
      rw [show (update m (Msg.key s)).1 = (handleKey m s).1 from rfl,
        handleKey_timeLeft m s (fun hs => h1 (by rw [hs])) (fun hs => h2 (by rw [hs]))]
      exact hm
  | resize w => exact ⟨rfl, hm⟩
  | tick =>
      refine ⟨(handleTick_nofire m (by omega)).1, ?_⟩
      show (handleTick m).1.timeLeft < 0
      cases hp : m.pause with
      | true => rw [handleTick_paused m hp]; exact hm
      | false => rw [handleTick_timeLeft m hp]; omega
  | frame => exact ⟨rfl, hm⟩

lemma nofire_of_neg (evs : List Msg) :
    ∀ m : TimerModel, m.timeLeft < 0 →
      (∀ e ∈ evs, e ≠ Msg.key "enter" ∧ e ≠ Msg.key "esc") →
      fireCount m evs = 0 ∧ (runFrom m evs).timeLeft < 0 := by
  induction evs with
  | nil => exact fun m hm _ => ⟨rfl, hm⟩
  | cons e es ih =>
      intro m hm hall
      obtain ⟨h1, h2⟩ := hall e (List.mem_cons_self e es)
      obtain ⟨hs, ht⟩ := update_step_nofire m e hm h1 h2
      obtain ⟨ihc, ihr⟩ := ih (update m e).1 ht
        (fun x hx => hall x (List.mem_cons_of_mem e hx))
      refine ⟨?_, ihr⟩
      show (if (update m e).2.sound then 1 else 0) + fireCount (update m e).1 es = 0
      rw [hs, ihc]
      rfl

lemma setPercentClamped_eq (p : ℚ) (h0 : 0 ≤ p) (h1 : p ≤ 1) :
    setPercentClamped p = p := by
  unfold setPercentClamped
  dsimp only
  split_ifs with a b c <;> linarith

lemma percentFormula_bounds (t T : Int) (h0 : 0 ≤ t) (hT : t ≤ T) (hTpos : 0 < T) :
    0 ≤ 1 - (t : ℚ) / (T : ℚ) ∧ 1 - (t : ℚ) / (T : ℚ) ≤ 1 := by
  have hTq : (0 : ℚ) < (T : ℚ) := by exact_mod_cast hTpos
  constructor
  · have hd : (t : ℚ) / (T : ℚ) ≤ 1 := by
      rw [div_le_one hTq]
      exact_mod_cast hT
    linarith
  · have hd : 0 ≤ (t : ℚ) / (T : ℚ) := div_nonneg (by exact_mod_cast h0) (le_of_lt hTq)
    linarith

lemma handleTick_unpaused (m : TimerModel) (hp : m.pause = false)
    (hty : m.timeType = WORKTIME ∨ m.timeType = RESTTIME) :
    (handleTick m).1.timeLeft = m.timeLeft - 1 ∧
    (handleTick m).1.percent =
      setPercentClamped (1 - ((m.timeLeft - 1 : Int) : ℚ) / ((totalSeconds m : Int) : ℚ)) := by
  unfold handleTick
  rw [if_neg (by simp [hp])]
  dsimp only
  refine ⟨rfl, ?_⟩
  unfold totalSeconds mappingGet
  rcases hty with h | h <;> rw [h]
  · rw [if_neg (by decide), if_pos rfl, if_pos rfl]
  · rw [if_pos rfl, if_neg (by decide), if_pos rfl]

lemma menuView_head (m : TimerModel) :
    (menuView m).data.head? = some 'C' := rfl

lemma countdownView_head (m : TimerModel) (pv endStr : String) (hs : String → String) :
    (countdownView m pv endStr hs).data.head? = some '\n' := rfl

lemma menuView_ne_countdownView (m m' : TimerModel) (pv endStr : String)
    (hs : String → String) : menuView m ≠ countdownView m' pv endStr hs := by
  intro h
  have h2 : (menuView m).data.head? = (countdownView m' pv endStr hs).data.head? := by
    rw [h]
  rw [menuView_head, countdownView_head] at h2
  exact absurd h2 (by decide)

/-- C1 (counterexample): the Select handler does NOT clear the paused
flag.  The state reached from startup by pressing space (Idle, paused)
is reachable; pressing enter there starts a Work countdown with
`pause` still true, contradicting "in either case clears the paused flag
to false". -/
theorem C1_select_keeps_pause_cex :
    Reachable (update initModel (Msg.key " ")).1 ∧
    (update initModel (Msg.key " ")).1.timeLeft = 0 ∧
    (update initModel (Msg.key " ")).1.pause = true ∧
    (update (update initModel (Msg.key " ")).1 (Msg.key "enter")).1.pause = true :=
  ⟨Reachable.step initModel (Msg.key " ") Reachable.init, by decide, by decide, by decide⟩

/-- C1 (amended): while Idle (`remainingSeconds = 0`), Select with the
cursor on Work sets the phase string to Work and remaining = total =
1500; with the cursor on Rest it sets phase Rest and remaining = total =
300; in either case the paused flag keeps its prior value (the handler
does not touch it). -/
theorem C1_select_sets_phase_and_durations (m : TimerModel)
    (hIdle : m.timeLeft = 0) :
    (m.cursor = 0 →
      (update m (Msg.key "enter")).1.timeType = WORKTIME ∧
      (update m (Msg.key "enter")).1.timeLeft = 1500 ∧
      totalSeconds (update m (Msg.key "enter")).1 = 1500) ∧
    (m.cursor = 1 →
      (update m (Msg.key "enter")).1.timeType = RESTTIME ∧
      (update m (Msg.key "enter")).1.timeLeft = 300 ∧
      totalSeconds (update m (Msg.key "enter")).1 = 300) ∧
    (update m (Msg.key "enter")).1.pause = m.pause := by
  obtain ⟨p, w, t, ty, c, pa⟩ := m
  refine ⟨?_, ?_, ?_⟩
  · intro hc
    change c = 0 at hc
    subst hc
    exact ⟨rfl, rfl, rfl⟩
  · intro hc
    change c = 1 at hc
    subst hc
    exact ⟨rfl, rfl, rfl⟩
  · show (handleKey ⟨p, w, t, ty, c, pa⟩ "enter").1.pause = pa
    unfold handleKey
    dsimp only
    split_ifs <;> first | rfl | exact absurd rfl (by assumption)

/-- C1 witness: the amended Select behaviour evaluated at the reachable
paused Idle state and at an Idle state with the cursor on Rest. -/
theorem C1_select_witness :
    ((update initModel (Msg.key " ")).1.timeLeft = 0 ∧
      ((update initModel (Msg.key " ")).1.cursor = 0 →
        (update (update initModel (Msg.key " ")).1 (Msg.key "enter")).1.timeType = WORKTIME ∧
        (update (update initModel (Msg.key " ")).1 (Msg.key "enter")).1.timeLeft = 1500 ∧
        totalSeconds (update (update initModel (Msg.key " ")).1 (Msg.key "enter")).1 = 1500)) ∧
    (update (update initModel (Msg.key " ")).1 (Msg.key "enter")).1.pause =
      (update initModel (Msg.key " ")).1.pause :=
  ⟨⟨by decide,
    (C1_select_sets_phase_and_durations (update initModel (Msg.key " ")).1 (by decide)).1⟩,
   (C1_select_sets_phase_and_durations (update initModel (Msg.key " ")).1 (by decide)).2.2⟩

/-- C2 (counterexample): `remainingSeconds ≥ 0` is NOT an invariant.
The tick handler decrements unconditionally after its completion check,
so a single Tick from the initial Idle state leaves
`remainingSeconds = -1`, a reachable state with a negative value. -/
theorem C2_remaining_can_go_negative_cex :
    Reachable (update initModel Msg.tick).1 ∧
    (update initModel Msg.tick).1.timeLeft = -1 ∧
    (update initModel Msg.tick).1.timeLeft < 0 :=
  ⟨Reachable.step initModel Msg.tick Reachable.init, by decide, by decide⟩

/-- C2 (amended): on every reachable state the bound
`remainingSeconds ≤ totalSeconds` does hold (the other half of the
claimed invariant); the lower bound `remainingSeconds ≥ 0` fails, as the
counterexample shows, because an unpaused Tick decrements even when the
counter is already at or below zero. -/
theorem C2_remaining_le_total (m : TimerModel) (h : Reachable m) :
    m.timeLeft ≤ totalSeconds m :=
  (reachable_inv m h).2.2

/-- C2 witness: the upper bound evaluated at the initial state. -/
theorem C2_remaining_le_total_witness :
    Reachable initModel ∧ initModel.timeLeft ≤ totalSeconds initModel :=
  ⟨Reachable.init, C2_remaining_le_total initModel Reachable.init⟩

/-- C3 (counterexample): in the run that selects Rest and ticks through
the whole countdown, the completion commands fire exactly once, and the
state is then Idle with `timeLeft = -1`; but a Reset (esc) — which is
neither a Select nor leaves the Idle/menu state — followed by one more
Tick makes them fire a second time, contradicting "never issues them
again on any subsequent Tick while the timer stays Idle (no new
Select)". -/
theorem C3_notification_refires_after_reset_cex :
    fireCount initModel countdownRun = 1 ∧
    (runFrom initModel countdownRun).timeLeft = -1 ∧
    (runFrom initModel countdownRun).percent = 1 ∧
    fireCount (runFrom initModel countdownRun) [Msg.key "esc", Msg.tick] = 1 := by
  set_option maxRecDepth 10000 in refine ⟨by decide, by decide, by decide, by decide⟩

/-- C3 (amended): the unpaused Tick taken at the completion boundary
(`percent = 1`, `remaining = 0`) issues the sound command and the
notification naming the finished phase, and leaves `remaining = -1`; a
Tick anywhere else (`remaining ≠ 0`) issues neither; and from any state
with `remaining < 0` (the state right after the boundary) no later event
fires either command again as long as no Select (enter) and no Reset
(esc) occurs — the Reset proviso is forced by the counterexample. -/
theorem C3_fire_once_at_boundary :
    (∀ m : TimerModel, m.pause = false → m.percent = 1 → m.timeLeft = 0 →
      (update m Msg.tick).2.sound = true ∧
      (update m Msg.tick).2.notif = some ("Time to " ++ m.timeType ++ " is left") ∧
      (update m Msg.tick).1.timeLeft = -1) ∧
    (∀ m : TimerModel, m.timeLeft ≠ 0 →
      (update m Msg.tick).2.sound = false ∧ (update m Msg.tick).2.notif = none) ∧
    (∀ (m : TimerModel) (evs : List Msg), m.timeLeft < 0 →
      (∀ e ∈ evs, e ≠ Msg.key "enter" ∧ e ≠ Msg.key "esc") →
      fireCount m evs = 0) := by
  refine ⟨?_, ?_, ?_⟩
  · intro m hp h1 h0
    show (handleTick m).2.sound = true ∧ (handleTick m).2.notif = _ ∧
      (handleTick m).1.timeLeft = -1
    unfold handleTick
    rw [if_neg (by simp [hp])]
    dsimp only
    rw [h0]
    refine ⟨by simp [h1], by simp [h1], by omega⟩
  · intro m h0
    exact handleTick_nofire m h0
  · intro m evs hm hall
    exact (nofire_of_neg evs m hm hall).1

/-- C3 witness: the three amended clauses evaluated at a completed Rest
boundary state, at the initial state (remaining 0 is excluded there, so
use the post-tick state with remaining -1), and at that same state with
a tick-and-pause event list. -/
theorem C3_fire_once_at_boundary_witness :
    (restBoundary.pause = false ∧
      (update restBoundary Msg.tick).2.sound = true ∧
      (update restBoundary Msg.tick).2.notif =
        some ("Time to " ++ RESTTIME ++ " is left")) ∧
    ((update initModel Msg.tick).1.timeLeft ≠ 0 ∧
      (update (update initModel Msg.tick).1 Msg.tick).2.sound = false) ∧
    ((update initModel Msg.tick).1.timeLeft < 0 ∧
      fireCount (update initModel Msg.tick).1 [Msg.tick, Msg.key " ", Msg.tick] = 0) :=
  ⟨⟨by decide,
    (C3_fire_once_at_boundary.1 _ (by decide) (by decide) (by decide)).1,
    (C3_fire_once_at_boundary.1 _ (by decide) (by decide) (by decide)).2.1⟩,
   ⟨by decide,
    (C3_fire_once_at_boundary.2.1 _ (by decide)).1⟩,
   ⟨by decide,
    C3_fire_once_at_boundary.2.2 _ [Msg.tick, Msg.key " ", Msg.tick] (by decide) (by decide)⟩⟩

/-- C4 (confirmed): an unpaused Tick on an active countdown
(`0 < remaining ≤ total`) decrements `remaining` by exactly 1 and sets
the progress target to `1 - remaining/total` (computed with the new
remaining, and inside [0,1] so the SetPercent clamp is the identity);
when the current target already equals the formula for the old
remaining, the new target is strictly larger, so successive unpaused
Ticks drive the fraction monotonically up toward 1. -/
theorem C4_tick_decrements_and_advances_progress (m : TimerModel)
    (hp : m.pause = false) (h1 : 0 < m.timeLeft) (h2 : m.timeLeft ≤ totalSeconds m) :
    (update m Msg.tick).1.timeLeft = m.timeLeft - 1 ∧
    (update m Msg.tick).1.percent =
      1 - ((m.timeLeft - 1 : Int) : ℚ) / ((totalSeconds m : Int) : ℚ) ∧
    (m.percent = 1 - ((m.timeLeft : Int) : ℚ) / ((totalSeconds m : Int) : ℚ) →
      m.percent < (update m Msg.tick).1.percent) := by
  have hty : m.timeType = WORKTIME ∨ m.timeType = RESTTIME := by
    by_contra hx
    push_neg at hx
    have h0 : totalSeconds m = 0 := by
      unfold totalSeconds mappingGet
      rw [if_neg hx.1, if_neg hx.2]
    omega
  have hTpos : 0 < totalSeconds m := by omega
  obtain ⟨ha, hb⟩ := handleTick_unpaused m hp hty
  have hbounds := percentFormula_bounds (m.timeLeft - 1) (totalSeconds m)
    (by omega) (by omega) hTpos
  have hperc : (update m Msg.tick).1.percent =
      1 - ((m.timeLeft - 1 : Int) : ℚ) / ((totalSeconds m : Int) : ℚ) := by
    show (handleTick m).1.percent = _
    rw [hb, setPercentClamped_eq _ hbounds.1 hbounds.2]
  refine ⟨ha, hperc, ?_⟩
  intro hEq
  rw [hperc, hEq]
  have hTq : (0 : ℚ) < ((totalSeconds m : Int) : ℚ) := by exact_mod_cast hTpos
  have hlt : ((m.timeLeft - 1 : Int) : ℚ) < ((m.timeLeft : Int) : ℚ) := by
    exact_mod_cast (by omega : (m.timeLeft - 1 : Int) < m.timeLeft)
  have hdiv : ((m.timeLeft - 1 : Int) : ℚ) / ((totalSeconds m : Int) : ℚ) <
      ((m.timeLeft : Int) : ℚ) / ((totalSeconds m : Int) : ℚ) := by
    gcongr
  linarith

/-- C4 witness: the Tick contract evaluated on a Rest countdown with 10
seconds left and an up-to-date progress target. -/
theorem C4_tick_witness :
    (midRest.pause = false ∧ 0 < midRest.timeLeft ∧
      midRest.timeLeft ≤ totalSeconds midRest) ∧
    (update midRest Msg.tick).1.timeLeft = midRest.timeLeft - 1 ∧
    (update midRest Msg.tick).1.percent =
      1 - ((midRest.timeLeft - 1 : Int) : ℚ) / ((totalSeconds midRest : Int) : ℚ) ∧
    midRest.percent < (update midRest Msg.tick).1.percent :=
  ⟨⟨by decide, by decide, by decide⟩,
   (C4_tick_decrements_and_advances_progress midRest (by decide) (by decide) (by decide)).1,
   (C4_tick_decrements_and_advances_progress midRest (by decide) (by decide) (by decide)).2.1,
   (C4_tick_decrements_and_advances_progress midRest (by decide) (by decide) (by decide)).2.2
     (by decide)⟩

/-- C5 (counterexample): the menu view is selected by `timeLeft <= 0`,
not by `timeLeft == 0`.  The reachable state one Tick after startup has
`remainingSeconds = -1` yet renders the menu, contradicting "produces
the menu view exactly when remainingSeconds == 0". -/
theorem C5_menu_at_negative_remaining_cex :
    Reachable (update initModel Msg.tick).1 ∧
    (update initModel Msg.tick).1.timeLeft ≠ 0 ∧
    View (update initModel Msg.tick).1 "" "" (fun s => s) =
      menuView (update initModel Msg.tick).1 :=
  ⟨Reachable.step initModel Msg.tick Reachable.init, by decide, by decide⟩

/-- C5 (amended): `render` produces the menu view exactly when
`remainingSeconds ≤ 0` (the counterexample forces ≤ in place of =), and
otherwise the countdown view; the two layouts are mutually exclusive
(they differ in their first character for every state and every rendered
progress bar, end-time text and help styling). -/
theorem C5_view_layouts (m : TimerModel) (pv endStr : String) (hs : String → String) :
    (m.timeLeft ≤ 0 → View m pv endStr hs = menuView m) ∧
    (0 < m.timeLeft → View m pv endStr hs = countdownView m pv endStr hs) ∧
    menuView m ≠ countdownView m pv endStr hs := by
  refine ⟨?_, ?_, menuView_ne_countdownView m m pv endStr hs⟩
  · intro h
    unfold View
    rw [if_pos h]
  · intro h
    unfold View
    rw [if_neg (by omega)]

/-- C5 witness: the layout split evaluated at the initial (menu) state
and at a mid-countdown state. -/
theorem C5_view_layouts_witness :
    (initModel.timeLeft ≤ 0 ∧
      View initModel "" "" (fun s => s) = menuView initModel) ∧
    (0 < midRest.timeLeft ∧
      View midRest "" "" (fun s => s) = countdownView midRest "" "" (fun s => s)) :=
  ⟨⟨by decide, (C5_view_layouts initModel "" "" (fun s => s)).1 (by decide)⟩,
   ⟨by decide, (C5_view_layouts midRest "" "" (fun s => s)).2.1 (by decide)⟩⟩

/-- C6 (confirmed): a Tick while paused returns the state completely
unchanged together with only the re-arm command — no quit, no sound, no
notification. -/
theorem C6_paused_tick_noop (m : TimerModel) (h : m.pause = true) :
    update m Msg.tick = (m, tickOnlyCmd) ∧
    tickOnlyCmd.tick = true ∧ tickOnlyCmd.sound = false ∧
    tickOnlyCmd.notif = none ∧ tickOnlyCmd.quit = false :=
  ⟨handleTick_paused m h, rfl, rfl, rfl, rfl⟩

/-- C6 witness: the paused no-op evaluated at the reachable state
obtained by pressing space at startup. -/
theorem C6_paused_tick_noop_witness :
    (update initModel (Msg.key " ")).1.pause = true ∧
    update (update initModel (Msg.key " ")).1 Msg.tick =
      ((update initModel (Msg.key " ")).1, tickOnlyCmd) :=
  ⟨by decide, (C6_paused_tick_noop (update initModel (Msg.key " ")).1 (by decide)).1⟩

/-- C7 (confirmed): from any reachable state, any sequence of cursor
events keeps `cursor` in [0, 2); Up at 0 wraps to 1 and Down at 1 wraps
to 0.  (The in-range part in fact holds for arbitrary event sequences;
the cursor-move restriction of the claim is kept as a hypothesis.) -/
theorem C7_cursor_in_range :
    (∀ m : TimerModel, Reachable m → ∀ evs : List Msg, (∀ e ∈ evs, CursorMove e) →
      0 ≤ (runFrom m evs).cursor ∧ (runFrom m evs).cursor < 2) ∧
    (∀ m : TimerModel, m.cursor = 0 → (update m (Msg.key "up")).1.cursor = 1) ∧
    (∀ m : TimerModel, m.cursor = 1 → (update m (Msg.key "down")).1.cursor = 0) := by
  refine ⟨?_, ?_, ?_⟩
  · intro m h evs _
    have hinv := inv_runFrom evs m (reachable_inv m h)
    rcases hinv.2.1 with h0 | h1 <;> omega
  · intro m hc
    obtain ⟨p, w, t, ty, c, pa⟩ := m
    change c = 0 at hc
    subst hc
    rfl
  · intro m hc
    obtain ⟨p, w, t, ty, c, pa⟩ := m
    change c = 1 at hc
    subst hc
    rfl

/-- C7 witness: wrap both ways from startup — Up at cursor 0 gives 1,
Down there again gives 0 — and the range bound after one Up. -/
theorem C7_cursor_in_range_witness :
    (Reachable initModel ∧ (∀ e ∈ [Msg.key "up"], CursorMove e) ∧
      0 ≤ (runFrom initModel [Msg.key "up"]).cursor ∧
      (runFrom initModel [Msg.key "up"]).cursor < 2) ∧
    (initModel.cursor = 0 ∧ (update initModel (Msg.key "up")).1.cursor = 1) ∧
    ((update initModel (Msg.key "up")).1.cursor = 1 ∧
      (update (update initModel (Msg.key "up")).1 (Msg.key "down")).1.cursor = 0) :=
  ⟨⟨Reachable.init, by decide,
    C7_cursor_in_range.1 initModel Reachable.init [Msg.key "up"] (by decide)⟩,
   ⟨by decide, C7_cursor_in_range.2.1 initModel (by decide)⟩,
   ⟨by decide, C7_cursor_in_range.2.2 (update initModel (Msg.key "up")).1 (by decide)⟩⟩

/-- C8 (confirmed): Reset (esc) sets `remainingSeconds` to 0 and
`paused` to false whatever the prior state, changing nothing else, and
the next render is the menu view. -/
theorem C8_reset (m : TimerModel) (pv endStr : String) (hs : String → String) :
    (update m (Msg.key "esc")).1 = { m with timeLeft := 0, pause := false } ∧
    View (update m (Msg.key "esc")).1 pv endStr hs =
      menuView (update m (Msg.key "esc")).1 := by
  have h1 : (update m (Msg.key "esc")).1 = { m with timeLeft := 0, pause := false } := rfl
  refine ⟨h1, ?_⟩
  rw [h1]
  unfold View
  rw [if_pos (le_refl 0)]

/-- C9 (confirmed): a Resize with width `w` sets the indicator width to
`w - padding*2 - 4` clamped above at 80; width 100 yields 80. -/
theorem C9_resize_width (m : TimerModel) (w : Int) :
    (update m (Msg.resize w)).1.width = min (w - padding * 2 - 4) maxWidth ∧
    (update m (Msg.resize 100)).1.width = 80 := by
  constructor
  · show (if w - padding * 2 - 4 > maxWidth then maxWidth
        else w - padding * 2 - 4) = min (w - padding * 2 - 4) maxWidth
    unfold padding maxWidth
    split_ifs with h <;> omega
  · rfl

/-- C10 (confirmed): Select is not guarded by Idle — with a countdown
already active it still applies, resetting remaining and total to the
full duration of the choice under the cursor and the phase to that
choice, while `paused` keeps its prior value. -/
theorem C10_select_while_active (m : TimerModel) (h1 : 0 < m.timeLeft)
    (hc : m.cursor = 0 ∨ m.cursor = 1) :
    (m.cursor = 0 →
      (update m (Msg.key "enter")).1.timeType = WORKTIME ∧
      (update m (Msg.key "enter")).1.timeLeft = work ∧
      totalSeconds (update m (Msg.key "enter")).1 = work) ∧
    (m.cursor = 1 →
      (update m (Msg.key "enter")).1.timeType = RESTTIME ∧
      (update m (Msg.key "enter")).1.timeLeft = rest ∧
      totalSeconds (update m (Msg.key "enter")).1 = rest) ∧
    (update m (Msg.key "enter")).1.pause = m.pause := by
  obtain ⟨p, w, t, ty, c, pa⟩ := m
  refine ⟨?_, ?_, ?_⟩
  · intro hcc
    change c = 0 at hcc
    subst hcc
    exact ⟨rfl, rfl, rfl⟩
  · intro hcc
    change c = 1 at hcc
    subst hcc
    exact ⟨rfl, rfl, rfl⟩
  · show (handleKey ⟨p, w, t, ty, c, pa⟩ "enter").1.pause = pa
    unfold handleKey
    dsimp only
    split_ifs <;> first | rfl | exact absurd rfl (by assumption)

/-- C10 witness: Select during a paused Rest countdown (10 seconds in)
restarts at the full Rest duration and keeps the paused flag true. -/
theorem C10_select_while_active_witness :
    (0 < (update midRest (Msg.key " ")).1.timeLeft ∧
      ((update midRest (Msg.key " ")).1.cursor = 0 ∨
        (update midRest (Msg.key " ")).1.cursor = 1)) ∧
    ((update midRest (Msg.key " ")).1.cursor = 1 →
      (update (update midRest (Msg.key " ")).1 (Msg.key "enter")).1.timeType = RESTTIME ∧
      (update (update midRest (Msg.key " ")).1 (Msg.key "enter")).1.timeLeft = rest ∧
      totalSeconds (update (update midRest (Msg.key " ")).1 (Msg.key "enter")).1 = rest) ∧
    (update (update midRest (Msg.key " ")).1 (Msg.key "enter")).1.pause =
      (update midRest (Msg.key " ")).1.pause :=
  ⟨⟨by decide, by decide⟩,
   (C10_select_while_active (update midRest (Msg.key " ")).1 (by decide) (by decide)).2.1,
   (C10_select_while_active (update midRest (Msg.key " ")).1 (by decide) (by decide)).2.2⟩

end Manta
